import Mathlib

/-
Verification of the `FCS_pr_q` flight-control-law pipeline from
`run_jsbsim.py` (NorthStarUAS simulator front end).

The controller is embedded shallowly over the real numbers: each quantity
computed inside `FCS_pr_q.update` becomes a Lean function of the persistent
controller state (`FCSState`) and the per-cycle input snapshot (`Snapshot`).
Machine floats are idealised as reals; `math.sin`, `cos`, `tan`, `exp`
become `Real.sin`, `Real.cos`, `Real.tan`, `Real.exp`.
-/

namespace FCS

/-- Modelled from the spec: `d2r` comes from `lib/constants`, which is not
among the provided sources; it is the usual degrees-to-radians factor. -/
noncomputable def d2r : ℝ := Real.pi / 180

/-- Modelled from the spec: `gravity` comes from `lib/constants`, which is
not among the provided sources; standard gravitational acceleration `g`
(the spec writes the feed-forward term as `tan(phi_deg) * -g / v_true`). -/
noncomputable def gravity : ℝ := 9.81

/-- Per-cycle input snapshot: the property-tree reads performed at the top
of `FCS_pr_q.update` (inceptor, velocity, attitude, acceleration and aero
nodes), plus the integration time step `dt` (modelled from the spec, which
has the shaper accumulate `gain * error * confidence * dt`). -/
structure Snapshot where
  vc_mps : ℝ
  vtrue_mps : ℝ
  phi_deg : ℝ
  theta_deg : ℝ
  p_rps : ℝ
  q_rps : ℝ
  r_rps : ℝ
  Nx : ℝ
  Ny : ℝ
  Nz : ℝ
  alpha_deg : ℝ
  beta_deg : ℝ
  aileron : ℝ
  elevator : ℝ
  rudder : ℝ
  throttle : ℝ
  flaps_down : Bool
  flaps_up : Bool
  dt : ℝ

/-- Persistent controller state: the exponentially filtered airspeeds
(`self.vc_mps`, `self.vtrue_mps`) and the three stored axis integrals
(held by the `NotaPID` roll/pitch/yaw helpers). -/
structure FCSState where
  vc_mps : ℝ
  vtrue_mps : ℝ
  roll_int : ℝ
  pitch_int : ℝ
  yaw_int : ℝ

/-- `FCS_pr_q.__init__`: both filtered airspeeds start at the 25 m/s floor;
the stored integrals start at zero. -/
noncomputable def initState : FCSState := ⟨25, 25, 0, 0, 0⟩

/-- Tuning record of one `NotaPID` axis helper, as passed to its
constructor in `FCS_pr_q.__init__`. -/
structure NotaPID where
  min_cmd : ℝ
  max_cmd : ℝ
  integral_gain : ℝ
  antiwindup : ℝ
  neutral_tolerance : ℝ

noncomputable def roll_helper : NotaPID := ⟨-45, 45, 1.0, 0.25, 0.02⟩

noncomputable def pitch_helper : NotaPID := ⟨-15, 15, -4.0, 0.5, 0.03⟩

noncomputable def yaw_helper : NotaPID := ⟨-20, 20, -0.01, 0.25, 0.02⟩

/-- Modelled from the spec: the `NotaPID` class itself is referenced by
`run_jsbsim.py` but its definition is not among the provided sources.
Spec contract for `shape`: blend the raw pilot rate command toward the
axis baseline as a function of confidence; snap commands within the
neutral tolerance of the baseline back to the baseline; clamp to the
optional `[min_clamp, max_clamp]` bounds (absent bound means no limit on
that side). The `current_angle` argument is accepted as in the source
call sites. -/
noncomputable def NotaPID.get_ref_value (pid : NotaPID) (raw_cmd baseline : ℝ)
    (min_clamp max_clamp : Option ℝ) (current_angle confidence : ℝ) : ℝ :=
  let _ := current_angle
  let blended := confidence * raw_cmd + (1 - confidence) * baseline
  let snapped := if |blended - baseline| ≤ pid.neutral_tolerance then baseline else blended
  let hi := match max_clamp with
    | some m => min snapped m
    | none => snapped
  match min_clamp with
  | some m => max hi m
  | none => hi

/-- Modelled from the spec: `NotaPID.integrator` accumulates
`integral_gain * (reference_rate - measured_rate) * confidence * dt` into
the stored integral, hard-clamps the result to `±antiwindup`, stores it and
returns it (the returned value and the new stored value coincide). -/
noncomputable def NotaPID.integrator (pid : NotaPID) (integral ref_rate measured_rate confidence dt : ℝ) : ℝ :=
  let acc := integral + pid.integral_gain * (ref_rate - measured_rate) * confidence * dt
  max (-pid.antiwindup) (min acc pid.antiwindup)

-- stick -> rate command scaling (`FCS_pr_q.__init__`)
noncomputable def roll_stick_scale : ℝ := 30 * d2r

noncomputable def pitch_stick_scale : ℝ := 30 * d2r

noncomputable def yaw_stick_scale : ℝ := 20 * d2r

-- flying vs on ground detection thresholds
noncomputable def on_ground_for_sure_mps : ℝ := 30

noncomputable def flying_for_sure_mps : ℝ := 40

-- envelope protection constants
noncomputable def alpha_limit_deg : ℝ := 13.0

noncomputable def bank_limit_deg : ℝ := 60.0

-- damper gains
noncomputable def roll_damp_gain : ℝ := 1500.0

noncomputable def pitch_damp_gain : ℝ := 1500.0

noncomputable def yaw_damp_gain : ℝ := 1500.0

/-- Raw calibrated airspeed clamped to the 25 m/s floor
(`if vc_mps < 25: vc_mps = 25`). -/
noncomputable def vcClamped (inp : Snapshot) : ℝ :=
  if inp.vc_mps < 25 then 25 else inp.vc_mps

/-- The new filtered calibrated airspeed
(`self.vc_mps = 0.99 * self.vc_mps + 0.01 * vc_mps`). -/
noncomputable def vcFilt (s : FCSState) (inp : Snapshot) : ℝ :=
  0.99 * s.vc_mps + 0.01 * vcClamped inp

/-- Raw true airspeed clamped to the 25 m/s floor
(`if vtrue_mps < 25: vtrue_mps = 25`). -/
noncomputable def vtrueClamped (inp : Snapshot) : ℝ :=
  if inp.vtrue_mps < 25 then 25 else inp.vtrue_mps

/-- The new filtered true airspeed
(`self.vtrue_mps = 0.99 * self.vtrue_mps + 0.01 * vtrue_mps`). -/
noncomputable def vtrueFilt (s : FCSState) (inp : Snapshot) : ℝ :=
  0.99 * s.vtrue_mps + 0.01 * vtrueClamped inp

/-- Dynamic pressure `self.qbar = 0.5 * self.vc_mps**2 * rho`, computed
from the freshly updated filtered calibrated airspeed with `rho = 1.225`. -/
noncomputable def qbar (s : FCSState) (inp : Snapshot) : ℝ :=
  0.5 * (vcFilt s inp) ^ 2 * 1.225

/-- Body-axis acceleration `self.ax = Nx * gravity`. -/
noncomputable def ax (inp : Snapshot) : ℝ := inp.Nx * gravity

/-- Body-axis acceleration `self.ay = Ny * gravity`. -/
noncomputable def ay (inp : Snapshot) : ℝ := inp.Ny * gravity

/-- Body-axis acceleration `self.az = Nz * gravity`. -/
noncomputable def az (inp : Snapshot) : ℝ := inp.Nz * gravity

/-- Gravity component `self.gbody_y = sin(phi)*cos(theta)*gravity`. -/
noncomputable def gbody_y (inp : Snapshot) : ℝ :=
  Real.sin (inp.phi_deg * d2r) * Real.cos (inp.theta_deg * d2r) * gravity

/-- The diagnostic term of line 119:
`self.q_term1 = sin(phi) * (sin(phi) / cos(phi)) / self.vc_mps`
(computed unconditionally, with no guard on `cos(phi)`). -/
noncomputable def q_term1 (s : FCSState) (inp : Snapshot) : ℝ :=
  Real.sin (inp.phi_deg * d2r) *
    (Real.sin (inp.phi_deg * d2r) / Real.cos (inp.phi_deg * d2r)) / vcFilt s inp

/-- The sigmoid argument `x = 10 * (self.vc_mps - on_ground_for_sure) / diff - 5`
with `diff = flying_for_sure - on_ground_for_sure`. -/
noncomputable def sigX (vc : ℝ) : ℝ :=
  10 * (vc - on_ground_for_sure_mps) / (flying_for_sure_mps - on_ground_for_sure_mps) - 5

/-- The logistic confidence `exp(x) / (1 + exp(x))` as a function of the
filtered calibrated airspeed. -/
noncomputable def confOf (vc : ℝ) : ℝ :=
  Real.exp (sigX vc) / (1 + Real.exp (sigX vc))

/-- `self.flying_confidence` as computed in the cycle, from the freshly
updated filtered calibrated airspeed. -/
noncomputable def flying_confidence (s : FCSState) (inp : Snapshot) : ℝ :=
  confOf (vcFilt s inp)

/-- Selected angle of attack: sensed `aero_node` value when
`flying_confidence > 0.5`, otherwise the pitch angle. -/
noncomputable def alpha_deg (s : FCSState) (inp : Snapshot) : ℝ :=
  if flying_confidence s inp > 0.5 then inp.alpha_deg else inp.theta_deg

/-- Selected sideslip: sensed `aero_node` value when
`flying_confidence > 0.5`, otherwise zero. -/
noncomputable def beta_deg (s : FCSState) (inp : Snapshot) : ℝ :=
  if flying_confidence s inp > 0.5 then inp.beta_deg else 0

/-- Feed-forward steady-state turn rate:
`tan(phi*d2r) * -gravity / vtrue_mps` when `abs(phi_deg) < 89`, else `0`.
Note the divisor is the local clamped raw `vtrue_mps`, not the filtered
`self.vtrue_mps`. -/
noncomputable def turn_rate_rps (inp : Snapshot) : ℝ :=
  if |inp.phi_deg| < 89 then
    Real.tan (inp.phi_deg * d2r) * (-gravity) / vtrueClamped inp
  else 0

/-- Baseline pitch rate `baseline_q = sin(phi*d2r) * turn_rate_rps`. -/
noncomputable def baseline_q (inp : Snapshot) : ℝ :=
  Real.sin (inp.phi_deg * d2r) * turn_rate_rps inp

/-- Baseline yaw rate `baseline_r = cos(phi*d2r) * turn_rate_rps`. -/
noncomputable def baseline_r (inp : Snapshot) : ℝ :=
  Real.cos (inp.phi_deg * d2r) * turn_rate_rps inp

/-- Pilot roll rate command `aileron * roll_stick_scale`. -/
noncomputable def roll_rate_cmd (inp : Snapshot) : ℝ :=
  inp.aileron * roll_stick_scale

/-- Pilot pitch rate command `-elevator * pitch_stick_scale`. -/
noncomputable def pitch_rate_cmd (inp : Snapshot) : ℝ :=
  -inp.elevator * pitch_stick_scale

/-- Pilot yaw rate command `rudder * yaw_stick_scale`. -/
noncomputable def yaw_rate_cmd (inp : Snapshot) : ℝ :=
  inp.rudder * yaw_stick_scale

/-- Envelope limit `max_q = (alpha_limit_deg - alpha_deg) * d2r * 2`. -/
noncomputable def max_q (s : FCSState) (inp : Snapshot) : ℝ :=
  (alpha_limit_deg - alpha_deg s inp) * d2r * 2

/-- Bank angle limit `max_p = (bank_limit_deg - phi_deg) * d2r * 0.5`. -/
noncomputable def max_p (inp : Snapshot) : ℝ :=
  (bank_limit_deg - inp.phi_deg) * d2r * 0.5

/-- Bank angle limit `min_p = (-bank_limit_deg - phi_deg) * d2r * 0.5`. -/
noncomputable def min_p (inp : Snapshot) : ℝ :=
  (-bank_limit_deg - inp.phi_deg) * d2r * 0.5

/-- Shaped roll rate reference `ref_p`. -/
noncomputable def ref_p (s : FCSState) (inp : Snapshot) : ℝ :=
  roll_helper.get_ref_value (roll_rate_cmd inp) 0 (some (min_p inp)) (some (max_p inp))
    inp.phi_deg (flying_confidence s inp)

/-- Shaped pitch rate reference `ref_q`. -/
noncomputable def ref_q (s : FCSState) (inp : Snapshot) : ℝ :=
  pitch_helper.get_ref_value (pitch_rate_cmd inp) (baseline_q inp) none (some (max_q s inp))
    inp.theta_deg (flying_confidence s inp)

/-- Shaped yaw rate reference `ref_r`. -/
noncomputable def ref_r (s : FCSState) (inp : Snapshot) : ℝ :=
  yaw_helper.get_ref_value (yaw_rate_cmd inp) (baseline_r inp) none none
    0 (flying_confidence s inp)

/-- The precomputed lateral inverse matrix `Ainv_lat` (2 x 2). -/
noncomputable def Ainv_lat : Fin 2 → Fin 2 → ℝ :=
  ![![5539.387453799963, -656.7869385413367],
    ![-630.2043681682369, 7844.231440517533]]

/-- The lateral bias coefficient matrix `B_lat` (2 x 6). -/
noncomputable def B_lat : Fin 2 → Fin 6 → ℝ :=
  ![![-0.18101905232004417, -0.005232046450801025, -0.00017122476763947896,
      0.0012871295574104415, 4.112901593458797, -0.012910711892868918],
    ![-0.28148143506417056, 0.0027324890386930005, -0.011315776036902089,
      0.0026095125404917378, 7.031756136691342, 0.011047506105235635]]

/-- The precomputed longitudinal inverse matrix `Ainv_lon` (1 x 1). -/
noncomputable def Ainv_lon : Fin 1 → Fin 1 → ℝ :=
  ![![-4996.770491110876]]

/-- The longitudinal bias coefficient matrix `B_lon` (1 x 6). -/
noncomputable def B_lon : Fin 1 → Fin 6 → ℝ :=
  ![![0.1564014979644371, -0.0004321270501734243, 0.015961030118490024,
     -0.00017520759288595846, -0.0016056595485786104, -5.95754057022715]]

/-- The lateral feature vector `b = [1, ay, gbody_y, vc_mps, 1/vc_mps, beta_deg]`. -/
noncomputable def lat_b (s : FCSState) (inp : Snapshot) : Fin 6 → ℝ :=
  ![1, ay inp, gbody_y inp, vcFilt s inp, 1 / vcFilt s inp, beta_deg s inp]

/-- `FCS_pr_q.lat_func`: `y = (Ainv_lat @ x - B_lat @ b) / qbar` with
`x = [ref_p, ref_beta]`, returned as the pair (aileron, rudder). -/
noncomputable def lat_func (s : FCSState) (inp : Snapshot) (rp rb : ℝ) : ℝ × ℝ :=
  let x : Fin 2 → ℝ := ![rp, rb]
  ((∑ j, Ainv_lat 0 j * x j - ∑ j, B_lat 0 j * lat_b s inp j) / qbar s inp,
   (∑ j, Ainv_lat 1 j * x j - ∑ j, B_lat 1 j * lat_b s inp j) / qbar s inp)

/-- The longitudinal feature vector `b = [1, ay, abs(ay), gbody_y, vc_mps, 1/vc_mps]`. -/
noncomputable def lon_b (s : FCSState) (inp : Snapshot) : Fin 6 → ℝ :=
  ![1, ay inp, |ay inp|, gbody_y inp, vcFilt s inp, 1 / vcFilt s inp]

/-- `FCS_pr_q.lon_func`: `y = (Ainv_lon @ [ref_q] - B_lon @ b) / qbar`,
the scalar elevator command. -/
noncomputable def lon_func (s : FCSState) (inp : Snapshot) (rq : ℝ) : ℝ :=
  (Ainv_lon 0 0 * rq - ∑ j, B_lon 0 j * lon_b s inp j) / qbar s inp

/-- Raw aileron command, first component of `lat_func(ref_p, ref_r)`. -/
noncomputable def raw_aileron_cmd (s : FCSState) (inp : Snapshot) : ℝ :=
  (lat_func s inp (ref_p s inp) (ref_r s inp)).1

/-- Raw rudder command, second component of `lat_func(ref_p, ref_r)`. -/
noncomputable def raw_rudder_cmd (s : FCSState) (inp : Snapshot) : ℝ :=
  (lat_func s inp (ref_p s inp) (ref_r s inp)).2

/-- Raw elevator command, `lon_func(ref_q)`. -/
noncomputable def raw_elevator_cmd (s : FCSState) (inp : Snapshot) : ℝ :=
  lon_func s inp (ref_q s inp)

/-- Returned roll integral `roll_helper.integrator(ref_p, p, flying_confidence)`. -/
noncomputable def aileron_int (s : FCSState) (inp : Snapshot) : ℝ :=
  roll_helper.integrator s.roll_int (ref_p s inp) inp.p_rps (flying_confidence s inp) inp.dt

/-- Returned pitch integral `pitch_helper.integrator(ref_q, q, flying_confidence)`. -/
noncomputable def elevator_int (s : FCSState) (inp : Snapshot) : ℝ :=
  pitch_helper.integrator s.pitch_int (ref_q s inp) inp.q_rps (flying_confidence s inp) inp.dt

/-- Returned yaw integral `yaw_helper.integrator(ref_r, r, flying_confidence)`. -/
noncomputable def rudder_int (s : FCSState) (inp : Snapshot) : ℝ :=
  yaw_helper.integrator s.yaw_int (ref_r s inp) inp.r_rps (flying_confidence s inp) inp.dt

/-- Roll damper `aileron_damp = p * roll_damp_gain / qbar`. -/
noncomputable def aileron_damp (s : FCSState) (inp : Snapshot) : ℝ :=
  inp.p_rps * roll_damp_gain / qbar s inp

/-- Pitch damper `elevator_damp = (q - baseline_q) * pitch_damp_gain / qbar`. -/
noncomputable def elevator_damp (s : FCSState) (inp : Snapshot) : ℝ :=
  (inp.q_rps - baseline_q inp) * pitch_damp_gain / qbar s inp

/-- Yaw damper `rudder_damp = (r - baseline_r) * yaw_damp_gain / qbar`. -/
noncomputable def rudder_damp (s : FCSState) (inp : Snapshot) : ℝ :=
  (inp.r_rps - baseline_r inp) * yaw_damp_gain / qbar s inp

/-- Final aileron `aileron_cmd = raw_aileron_cmd + aileron_int - aileron_damp`. -/
noncomputable def aileron_cmd (s : FCSState) (inp : Snapshot) : ℝ :=
  raw_aileron_cmd s inp + aileron_int s inp - aileron_damp s inp

/-- Final elevator `elevator_cmd = raw_elevator_cmd + elevator_int + elevator_damp`. -/
noncomputable def elevator_cmd (s : FCSState) (inp : Snapshot) : ℝ :=
  raw_elevator_cmd s inp + elevator_int s inp + elevator_damp s inp

/-- Final rudder `rudder_cmd = raw_rudder_cmd + rudder_int - rudder_damp`. -/
noncomputable def rudder_cmd (s : FCSState) (inp : Snapshot) : ℝ :=
  raw_rudder_cmd s inp + rudder_int s inp - rudder_damp s inp

/-- The surface/engine command snapshot written at the end of a cycle
(`control_flight_node` and `control_engine_node` writes). -/
structure Output where
  aileron : ℝ
  elevator : ℝ
  rudder : ℝ
  throttle : ℝ
  flaps_down : Bool
  flaps_up : Bool

/-- All outputs emitted by one `FCS_pr_q.update` cycle: the composed
surface commands, plus throttle and the flap discretes read straight from
the inceptor node. -/
noncomputable def runOutput (s : FCSState) (inp : Snapshot) : Output :=
  ⟨aileron_cmd s inp, elevator_cmd s inp, rudder_cmd s inp,
   inp.throttle, inp.flaps_down, inp.flaps_up⟩

/-- The persistent-state effect of one `FCS_pr_q.update` cycle: the two
filtered airspeeds and the three stored axis integrals are replaced. -/
noncomputable def update (s : FCSState) (inp : Snapshot) : FCSState :=
  ⟨vcFilt s inp, vtrueFilt s inp,
   aileron_int s inp, elevator_int s inp, rudder_int s inp⟩

/-- Run a freshly initialized controller through a list of input
snapshots, one `update` cycle per snapshot. -/
noncomputable def runAll (inps : List Snapshot) : FCSState :=
  inps.foldl update initState

/-! ## Helper lemmas -/

lemma vcClamped_ge (inp : Snapshot) : (25 : ℝ) ≤ vcClamped inp := by
  unfold vcClamped
  split_ifs with h
  · norm_num
  · linarith [not_lt.mp h]

lemma vtrueClamped_ge (inp : Snapshot) : (25 : ℝ) ≤ vtrueClamped inp := by
  unfold vtrueClamped
  split_ifs with h
  · norm_num
  · linarith [not_lt.mp h]

lemma vcFilt_ge (s : FCSState) (inp : Snapshot) (h : 25 ≤ s.vc_mps) :
    25 ≤ vcFilt s inp := by
  have hc := vcClamped_ge inp
  unfold vcFilt
  linarith

lemma vtrueFilt_ge (s : FCSState) (inp : Snapshot) (h : 25 ≤ s.vtrue_mps) :
    25 ≤ vtrueFilt s inp := by
  have hc := vtrueClamped_ge inp
  unfold vtrueFilt
  linarith

lemma qbar_eq (s : FCSState) (inp : Snapshot) :
    qbar s inp = 0.5 * 1.225 * (vcFilt s inp) ^ 2 := by
  unfold qbar; ring

lemma qbar_ge (s : FCSState) (inp : Snapshot) (h : 25 ≤ s.vc_mps) :
    0.5 * 1.225 * 625 ≤ qbar s inp := by
  have hv := vcFilt_ge s inp h
  rw [qbar_eq]
  nlinarith

lemma state_floor (inps : List Snapshot) :
    25 ≤ (runAll inps).vc_mps ∧ 25 ≤ (runAll inps).vtrue_mps := by
  unfold runAll
  have key : ∀ (l : List Snapshot) (s : FCSState), 25 ≤ s.vc_mps → 25 ≤ s.vtrue_mps →
      25 ≤ (l.foldl update s).vc_mps ∧ 25 ≤ (l.foldl update s).vtrue_mps := by
    intro l
    induction l with
    | nil => intro s h1 h2; exact ⟨h1, h2⟩
    | cons a t ih =>
      intro s h1 h2
      simp only [List.foldl_cons]
      exact ih (update s a) (vcFilt_ge s a h1) (vtrueFilt_ge s a h2)
  exact key inps initState (by norm_num [initState]) (by norm_num [initState])

lemma clamp_abs_le (aw acc : ℝ) (h : 0 ≤ aw) : |max (-aw) (min acc aw)| ≤ aw := by
  rw [abs_le]
  refine ⟨le_max_left _ _, max_le (by linarith) (min_le_right _ _)⟩

lemma aileron_int_bound (s : FCSState) (inp : Snapshot) : |aileron_int s inp| ≤ 0.25 := by
  unfold aileron_int NotaPID.integrator
  exact clamp_abs_le _ _ (by norm_num [roll_helper])

lemma elevator_int_bound (s : FCSState) (inp : Snapshot) : |elevator_int s inp| ≤ 0.5 := by
  unfold elevator_int NotaPID.integrator
  exact clamp_abs_le _ _ (by norm_num [pitch_helper])

lemma rudder_int_bound (s : FCSState) (inp : Snapshot) : |rudder_int s inp| ≤ 0.25 := by
  unfold rudder_int NotaPID.integrator
  exact clamp_abs_le _ _ (by norm_num [yaw_helper])

lemma state_int_bound (inps : List Snapshot) :
    |(runAll inps).roll_int| ≤ 0.25 ∧ |(runAll inps).pitch_int| ≤ 0.5 ∧
    |(runAll inps).yaw_int| ≤ 0.25 := by
  unfold runAll
  have key : ∀ (l : List Snapshot) (s : FCSState),
      |s.roll_int| ≤ 0.25 → |s.pitch_int| ≤ 0.5 → |s.yaw_int| ≤ 0.25 →
      |(l.foldl update s).roll_int| ≤ 0.25 ∧ |(l.foldl update s).pitch_int| ≤ 0.5 ∧
      |(l.foldl update s).yaw_int| ≤ 0.25 := by
    intro l
    induction l with
    | nil => intro s h1 h2 h3; exact ⟨h1, h2, h3⟩
    | cons a t ih =>
      intro s h1 h2 h3
      simp only [List.foldl_cons]
      exact ih (update s a) (aileron_int_bound s a) (elevator_int_bound s a)
        (rudder_int_bound s a)
  exact key inps initState (by norm_num [initState]) (by norm_num [initState])
    (by norm_num [initState])

/-- Every divisor that occurs in one `FCS_pr_q.update` cycle being nonzero:
`cos(phi)` and `self.vc_mps` in `q_term1` (line 119), the threshold
difference in the sigmoid argument, `1 + exp(x)` in the confidence, the
clamped raw `vtrue_mps` in the turn rate (line 149), `self.vc_mps` in the
`1/vc` features of `lat_func`/`lon_func`, and `qbar` in the dampers and
both allocator functions. -/
noncomputable def cycleDivisorsNonzero (s : FCSState) (inp : Snapshot) : Prop :=
  Real.cos (inp.phi_deg * d2r) ≠ 0 ∧
  vcFilt s inp ≠ 0 ∧
  flying_for_sure_mps - on_ground_for_sure_mps ≠ 0 ∧
  1 + Real.exp (sigX (vcFilt s inp)) ≠ 0 ∧
  vtrueClamped inp ≠ 0 ∧
  qbar s inp ≠ 0

/-- An all-zero input snapshot. -/
noncomputable def zeroSnap : Snapshot :=
  ⟨0, 0, 0, 0, 0, 0, 0, 0, 0, 0, 0, 0, 0, 0, 0, 0, false, false, 0⟩

/-- A snapshot whose bank angle is exactly 90 degrees, all else zero. -/
noncomputable def snap90 : Snapshot :=
  ⟨0, 0, 90, 0, 0, 0, 0, 0, 0, 0, 0, 0, 0, 0, 0, 0, false, false, 0⟩

/-- A snapshot with bank angle 45 degrees and raw true airspeed 125 m/s. -/
noncomputable def snapC4 : Snapshot :=
  ⟨0, 125, 45, 0, 0, 0, 0, 0, 0, 0, 0, 0, 0, 0, 0, 0, false, false, 0⟩

/-- A snapshot with a unit positive elevator stick deflection, all else zero. -/
noncomputable def snapE : Snapshot :=
  ⟨0, 0, 0, 0, 0, 0, 0, 0, 0, 0, 0, 0, 0, 1, 0, 0, false, false, 0⟩

/-! ## Claims -/

/-- C1: for every sequence of update cycles from a fresh `FCS_pr_q`, the
persistent filtered airspeeds `vc_mps` and `vtrue_mps` are at least 25 m/s
before and after every cycle (for any raw airspeed inputs, including 0 or
negative), the dynamic pressure of the cycle equals
`0.5 * 1.225 * vc_mps^2` with `vc_mps >= 25`, hence
`qbar >= 0.5 * 1.225 * 625 > 0`, and every division by `vc_mps` or `qbar`
in the cycle divides by a positive number. -/
theorem airspeed_floor_invariant (inps : List Snapshot) (inp : Snapshot) :
    25 ≤ (runAll inps).vc_mps ∧ 25 ≤ (runAll inps).vtrue_mps ∧
    25 ≤ (update (runAll inps) inp).vc_mps ∧
    25 ≤ (update (runAll inps) inp).vtrue_mps ∧
    qbar (runAll inps) inp = 0.5 * 1.225 * (vcFilt (runAll inps) inp) ^ 2 ∧
    25 ≤ vcFilt (runAll inps) inp ∧
    0.5 * 1.225 * 625 ≤ qbar (runAll inps) inp ∧
    0 < vcFilt (runAll inps) inp ∧ 0 < qbar (runAll inps) inp := by
  obtain ⟨h1, h2⟩ := state_floor inps
  have hv := vcFilt_ge (runAll inps) inp h1
  have hq := qbar_ge (runAll inps) inp h1
  exact ⟨h1, h2, vcFilt_ge _ _ h1, vtrueFilt_ge _ _ h2, qbar_eq _ _, hv, hq,
    by linarith, by linarith⟩

/-- C3: for every sequence of update cycles and arbitrary inputs, the
stored integral of each axis helper never exceeds its configured
antiwindup limit in absolute value (0.25 roll, 0.5 pitch, 0.25 yaw), and
the value returned by each integrator call in a cycle is exactly the
clamped integral stored back into the state. -/
theorem antiwindup_invariant (inps : List Snapshot) (inp : Snapshot) :
    |(runAll inps).roll_int| ≤ 0.25 ∧ |(runAll inps).pitch_int| ≤ 0.5 ∧
    |(runAll inps).yaw_int| ≤ 0.25 ∧
    |aileron_int (runAll inps) inp| ≤ 0.25 ∧
    |elevator_int (runAll inps) inp| ≤ 0.5 ∧
    |rudder_int (runAll inps) inp| ≤ 0.25 ∧
    (update (runAll inps) inp).roll_int = aileron_int (runAll inps) inp ∧
    (update (runAll inps) inp).pitch_int = elevator_int (runAll inps) inp ∧
    (update (runAll inps) inp).yaw_int = rudder_int (runAll inps) inp := by
  obtain ⟨h1, h2, h3⟩ := state_int_bound inps
  exact ⟨h1, h2, h3, aileron_int_bound _ _, elevator_int_bound _ _,
    rudder_int_bound _ _, rfl, rfl, rfl⟩

/-- C2 counterexample: at a bank angle of exactly 90 degrees the divisor
`cos(phi_deg * d2r)` of the unguarded `q_term1` expression (line 119) is
exactly zero in real arithmetic, so not every division of the cycle has a
nonzero divisor. -/
theorem cycle_divisors_counterexample : ¬ cycleDivisorsNonzero initState snap90 := by
  intro h
  apply h.1
  have h90 : snap90.phi_deg * d2r = Real.pi / 2 := by
    show (90 : ℝ) * (Real.pi / 180) = Real.pi / 2
    ring
  rw [h90, Real.cos_pi_div_two]

/-- C2 (amended): for every controller state respecting the 25 m/s filter
floor and every input snapshot whose bank angle has nonzero cosine (i.e.
is not an odd multiple of 90 degrees), every division performed by one
`FCS_pr_q.update` cycle has a nonzero divisor. -/
theorem cycle_divisors_nonzero (s : FCSState) (inp : Snapshot)
    (hs : 25 ≤ s.vc_mps) (hcos : Real.cos (inp.phi_deg * d2r) ≠ 0) :
    cycleDivisorsNonzero s inp := by
  have hv := vcFilt_ge s inp hs
  have hq := qbar_ge s inp hs
  have hvt := vtrueClamped_ge inp
  refine ⟨hcos, ne_of_gt (by linarith), ?_, by positivity,
    ne_of_gt (by linarith), ne_of_gt (by linarith)⟩
  norm_num [flying_for_sure_mps, on_ground_for_sure_mps]

/-- C2 witness: a fresh controller state and the all-zero snapshot satisfy
the hypotheses, and every cycle divisor is nonzero there. -/
theorem cycle_divisors_nonzero_w :
    25 ≤ initState.vc_mps ∧ Real.cos (zeroSnap.phi_deg * d2r) ≠ 0 ∧
    cycleDivisorsNonzero initState zeroSnap := by
  have h1 : (25 : ℝ) ≤ initState.vc_mps := by norm_num [initState]
  have h2 : Real.cos (zeroSnap.phi_deg * d2r) ≠ 0 := by
    have h0 : zeroSnap.phi_deg * d2r = 0 := by
      show (0 : ℝ) * d2r = 0
      ring
    rw [h0, Real.cos_zero]
    norm_num
  exact ⟨h1, h2, cycle_divisors_nonzero initState zeroSnap h1 h2⟩

/-- C4 counterexample: with bank angle 45 degrees and raw true airspeed
125 m/s fed to a fresh controller, the computed turn rate is
`tan(45°) * -g / 125` (the clamped raw true airspeed), which differs from
`tan(45°) * -g` divided by the exponentially filtered true airspeed
(whether taken after the cycle, 26 m/s, or before it, 25 m/s). -/
theorem turn_rate_filtered_counterexample :
    turn_rate_rps snapC4 ≠
      Real.tan (snapC4.phi_deg * d2r) * (-gravity) / vtrueFilt initState snapC4 ∧
    turn_rate_rps snapC4 ≠
      Real.tan (snapC4.phi_deg * d2r) * (-gravity) / initState.vtrue_mps := by
  have h45 : snapC4.phi_deg * d2r = Real.pi / 4 := by
    show (45 : ℝ) * (Real.pi / 180) = Real.pi / 4
    ring
  have htan : Real.tan (snapC4.phi_deg * d2r) = 1 := by
    rw [h45, Real.tan_pi_div_four]
  have hcl : vtrueClamped snapC4 = 125 := by
    norm_num [vtrueClamped, snapC4]
  have hfl : vtrueFilt initState snapC4 = 26 := by
    norm_num [vtrueFilt, initState, hcl]
  have htr : turn_rate_rps snapC4 = -9.81 / 125 := by
    unfold turn_rate_rps
    rw [if_pos (by norm_num [snapC4] : |snapC4.phi_deg| < 89), htan, hcl]
    norm_num [gravity]
  constructor
  · rw [htr, htan, hfl]
    norm_num [gravity]
  · rw [htr, htan]
    norm_num [gravity, initState]

/-- C4 (amended): in every cycle with `|phi_deg| < 89` the feed-forward
turn rate equals `tan(phi_deg * d2r) * -gravity` divided by the per-cycle
clamped raw true airspeed (`max(raw, 25)`, not the exponentially filtered
state), and the baselines are `q0 = sin(phi)*turn_rate` and
`r0 = cos(phi)*turn_rate`. -/
theorem feed_forward_formula (inp : Snapshot) (h : |inp.phi_deg| < 89) :
    turn_rate_rps inp = Real.tan (inp.phi_deg * d2r) * (-gravity) / vtrueClamped inp ∧
    baseline_q inp = Real.sin (inp.phi_deg * d2r) * turn_rate_rps inp ∧
    baseline_r inp = Real.cos (inp.phi_deg * d2r) * turn_rate_rps inp := by
  refine ⟨?_, rfl, rfl⟩
  unfold turn_rate_rps
  rw [if_pos h]

/-- C4 witness: the all-zero snapshot has `|phi_deg| < 89` and satisfies
the amended feed-forward formula. -/
theorem feed_forward_formula_w :
    |zeroSnap.phi_deg| < 89 ∧
    turn_rate_rps zeroSnap =
      Real.tan (zeroSnap.phi_deg * d2r) * (-gravity) / vtrueClamped zeroSnap := by
  have h : |zeroSnap.phi_deg| < 89 := by norm_num [zeroSnap]
  exact ⟨h, (feed_forward_formula zeroSnap h).1⟩

/-- C5: for `|phi_deg| >= 89` the turn rate is exactly 0 and both
baselines vanish; at `phi_deg = 0` both baselines vanish; and for
`|phi_deg| < 89` the turn rate has the same sign as `-tan(phi_deg * d2r)`
(it is positive when the tangent is negative, negative when the tangent is
positive, and zero when the tangent is zero). -/
theorem feed_forward_boundary (inp : Snapshot) :
    (89 ≤ |inp.phi_deg| →
      turn_rate_rps inp = 0 ∧ baseline_q inp = 0 ∧ baseline_r inp = 0) ∧
    (inp.phi_deg = 0 → baseline_q inp = 0 ∧ baseline_r inp = 0) ∧
    (|inp.phi_deg| < 89 →
      (Real.tan (inp.phi_deg * d2r) < 0 → 0 < turn_rate_rps inp) ∧
      (0 < Real.tan (inp.phi_deg * d2r) → turn_rate_rps inp < 0) ∧
      (Real.tan (inp.phi_deg * d2r) = 0 → turn_rate_rps inp = 0)) := by
  refine ⟨?_, ?_, ?_⟩
  · intro h
    have h0 : turn_rate_rps inp = 0 := by
      unfold turn_rate_rps
      rw [if_neg (not_lt.mpr h)]
    refine ⟨h0, ?_, ?_⟩
    · unfold baseline_q; rw [h0, mul_zero]
    · unfold baseline_r; rw [h0, mul_zero]
  · intro h
    have h0 : turn_rate_rps inp = 0 := by
      unfold turn_rate_rps
      rw [if_pos (by rw [h]; norm_num)]
      rw [h, zero_mul, Real.tan_zero, zero_mul, zero_div]
    constructor
    · unfold baseline_q; rw [h0, mul_zero]
    · unfold baseline_r; rw [h0, mul_zero]
  · intro h
    have hvt : (0 : ℝ) < vtrueClamped inp :=
      lt_of_lt_of_le (by norm_num) (vtrueClamped_ge inp)
    have htr : turn_rate_rps inp =
        Real.tan (inp.phi_deg * d2r) * (-gravity) / vtrueClamped inp := by
      unfold turn_rate_rps
      rw [if_pos h]
    refine ⟨?_, ?_, ?_⟩
    · intro ht
      rw [htr]
      exact div_pos (mul_pos_of_neg_of_neg ht (by norm_num [gravity])) hvt
    · intro ht
      rw [htr]
      exact div_neg_of_neg_of_pos (mul_neg_of_pos_of_neg ht (by norm_num [gravity])) hvt
    · intro ht
      rw [htr, ht, zero_mul, zero_div]

/-- C5 witness: at zero bank angle both baselines vanish. -/
theorem feed_forward_boundary_w :
    zeroSnap.phi_deg = 0 ∧ baseline_q zeroSnap = 0 ∧ baseline_r zeroSnap = 0 :=
  ⟨rfl, (feed_forward_boundary zeroSnap).2.1 rfl⟩

lemma confOf_nonneg (v : ℝ) : 0 ≤ confOf v := by
  unfold confOf
  have h := Real.exp_pos (sigX v)
  positivity

lemma confOf_le_one (v : ℝ) : confOf v ≤ 1 := by
  unfold confOf
  have h := Real.exp_pos (sigX v)
  rw [div_le_one (by linarith)]
  linarith

lemma sigX_mono (v w : ℝ) (h : v ≤ w) : sigX v ≤ sigX w := by
  unfold sigX on_ground_for_sure_mps flying_for_sure_mps
  norm_num
  linarith

lemma confOf_mono (v w : ℝ) (h : v ≤ w) : confOf v ≤ confOf w := by
  unfold confOf
  have hv := Real.exp_pos (sigX v)
  have hw := Real.exp_pos (sigX w)
  rw [div_le_div_iff₀ (by linarith) (by linarith)]
  have he : Real.exp (sigX v) ≤ Real.exp (sigX w) :=
    Real.exp_le_exp.mpr (sigX_mono v w h)
  nlinarith

lemma confOf_le_half (v : ℝ) (h : sigX v ≤ 0) : confOf v ≤ 0.5 := by
  unfold confOf
  have hp := Real.exp_pos (sigX v)
  have he : Real.exp (sigX v) ≤ 1 := by
    have h1 := Real.exp_le_exp.mpr h
    rwa [Real.exp_zero] at h1
  rw [div_le_iff₀ (by linarith)]
  nlinarith

/-- C6: the flying confidence computed in a cycle equals the logistic
sigmoid `exp(x)/(1+exp(x))` of `x = 10*(vc - 30)/(40 - 30) - 5` evaluated
at the filtered calibrated airspeed; it lies in `[0, 1]`; and as a
function of the airspeed it is monotone non-decreasing. -/
theorem flying_confidence_spec (s : FCSState) (inp : Snapshot) (v w : ℝ) (hvw : v ≤ w) :
    flying_confidence s inp =
      Real.exp (10 * (vcFilt s inp - 30) / (40 - 30) - 5) /
        (1 + Real.exp (10 * (vcFilt s inp - 30) / (40 - 30) - 5)) ∧
    0 ≤ flying_confidence s inp ∧ flying_confidence s inp ≤ 1 ∧
    flying_confidence s inp = confOf (vcFilt s inp) ∧
    confOf v ≤ confOf w := by
  refine ⟨?_, confOf_nonneg _, confOf_le_one _, rfl, confOf_mono v w hvw⟩
  unfold flying_confidence confOf sigX on_ground_for_sure_mps flying_for_sure_mps
  norm_num

/-- C6 witness: the sigmoid inequality at the two calibration thresholds. -/
theorem flying_confidence_spec_w : (30 : ℝ) ≤ 40 ∧ confOf 30 ≤ confOf 40 :=
  ⟨by norm_num,
    (flying_confidence_spec initState zeroSnap 30 40 (by norm_num)).2.2.2.2⟩

/-- C7: in every cycle, if the flying confidence is at most 0.5 the
controller takes `alpha_deg` to be the pitch angle and `beta_deg` to be
zero; if it exceeds 0.5, both are the directly sensed snapshot values. -/
theorem aero_state_selection (s : FCSState) (inp : Snapshot) :
    (flying_confidence s inp ≤ 0.5 →
      alpha_deg s inp = inp.theta_deg ∧ beta_deg s inp = 0) ∧
    (0.5 < flying_confidence s inp →
      alpha_deg s inp = inp.alpha_deg ∧ beta_deg s inp = inp.beta_deg) := by
  constructor
  · intro h
    have hn : ¬ (flying_confidence s inp > 0.5) := not_lt.mpr h
    unfold alpha_deg beta_deg
    rw [if_neg hn, if_neg hn]
    exact ⟨rfl, rfl⟩
  · intro h
    unfold alpha_deg beta_deg
    rw [if_pos h, if_pos h]
    exact ⟨rfl, rfl⟩

/-- C7 witness: a fresh controller fed the all-zero snapshot has
confidence at most 0.5 and falls back to pitch angle and zero sideslip. -/
theorem aero_state_selection_w :
    flying_confidence initState zeroSnap ≤ 0.5 ∧
    alpha_deg initState zeroSnap = zeroSnap.theta_deg ∧
    beta_deg initState zeroSnap = 0 := by
  have hv : vcFilt initState zeroSnap = 25 := by
    norm_num [vcFilt, vcClamped, initState, zeroSnap]
  have hc : flying_confidence initState zeroSnap ≤ 0.5 := by
    unfold flying_confidence
    rw [hv]
    exact confOf_le_half 25
      (by norm_num [sigX, on_ground_for_sure_mps, flying_for_sure_mps])
  exact ⟨hc, (aero_state_selection initState zeroSnap).1 hc⟩

/-- C8: in every cycle the raw aileron and rudder commands are
`(Ainv_lat @ [ref_p, ref_r] - B_lat @ [1, ay, gbody_y, vc, 1/vc, beta]) / qbar`
with the fixed 2x2 and 2x6 constants of the source, and the raw elevator
command is `(Ainv_lon @ [ref_q] - B_lon @ [1, ay, |ay|, gbody_y, vc, 1/vc]) / qbar`
with the fixed 1x1 and 1x6 constants (spelled out literally below). -/
theorem control_allocation (s : FCSState) (inp : Snapshot) :
    raw_aileron_cmd s inp =
      (5539.387453799963 * ref_p s inp + (-656.7869385413367) * ref_r s inp -
        ((-0.18101905232004417) * 1 + (-0.005232046450801025) * ay inp +
         (-0.00017122476763947896) * gbody_y inp +
         0.0012871295574104415 * vcFilt s inp +
         4.112901593458797 * (1 / vcFilt s inp) +
         (-0.012910711892868918) * beta_deg s inp)) / qbar s inp ∧
    raw_rudder_cmd s inp =
      ((-630.2043681682369) * ref_p s inp + 7844.231440517533 * ref_r s inp -
        ((-0.28148143506417056) * 1 + 0.0027324890386930005 * ay inp +
         (-0.011315776036902089) * gbody_y inp +
         0.0026095125404917378 * vcFilt s inp +
         7.031756136691342 * (1 / vcFilt s inp) +
         0.011047506105235635 * beta_deg s inp)) / qbar s inp ∧
    raw_elevator_cmd s inp =
      ((-4996.770491110876) * ref_q s inp -
        (0.1564014979644371 * 1 + (-0.0004321270501734243) * ay inp +
         0.015961030118490024 * |ay inp| +
         (-0.00017520759288595846) * gbody_y inp +
         (-0.0016056595485786104) * vcFilt s inp +
         (-5.95754057022715) * (1 / vcFilt s inp))) / qbar s inp := by
  refine ⟨?_, ?_, ?_⟩ <;>
  · simp [raw_aileron_cmd, raw_rudder_cmd, raw_elevator_cmd, lat_func, lon_func,
      Ainv_lat, B_lat, Ainv_lon, B_lon, lat_b, lon_b,
      Fin.sum_univ_succ, Matrix.cons_val_zero, Matrix.cons_val_succ]
    ring

/-- C9: the emitted surface commands are `raw + integral - damping` for
aileron and rudder but `raw + integral + damping` for elevator, and the
throttle and flap outputs are the pilot inceptor inputs unmodified. -/
theorem command_composition (s : FCSState) (inp : Snapshot) :
    (runOutput s inp).aileron =
      raw_aileron_cmd s inp + aileron_int s inp - aileron_damp s inp ∧
    (runOutput s inp).elevator =
      raw_elevator_cmd s inp + elevator_int s inp + elevator_damp s inp ∧
    (runOutput s inp).rudder =
      raw_rudder_cmd s inp + rudder_int s inp - rudder_damp s inp ∧
    (runOutput s inp).throttle = inp.throttle ∧
    (runOutput s inp).flaps_down = inp.flaps_down ∧
    (runOutput s inp).flaps_up = inp.flaps_up :=
  ⟨rfl, rfl, rfl, rfl, rfl, rfl⟩

/-- C10: the raw pitch rate command is the negation of the elevator stick
scaled by 30 deg/s in radians, while the roll and yaw rate commands are
un-negated scalings of their sticks (30 deg/s and 20 deg/s respectively);
hence a positive elevator stick deflection commands a negative pitch
rate. -/
theorem pilot_command_sign_convention (inp : Snapshot) :
    pitch_rate_cmd inp = -(inp.elevator * (30 * d2r)) ∧
    roll_rate_cmd inp = inp.aileron * (30 * d2r) ∧
    yaw_rate_cmd inp = inp.rudder * (20 * d2r) ∧
    (0 < inp.elevator → pitch_rate_cmd inp < 0) := by
  have hd : (0 : ℝ) < d2r := by
    unfold d2r
    positivity
  refine ⟨?_, rfl, rfl, ?_⟩
  · unfold pitch_rate_cmd pitch_stick_scale
    ring
  · intro h
    unfold pitch_rate_cmd pitch_stick_scale
    nlinarith [mul_pos h hd]

/-- C10 witness: a unit positive elevator stick yields a negative pitch
rate command. -/
theorem pilot_command_sign_convention_w :
    (0 : ℝ) < snapE.elevator ∧ pitch_rate_cmd snapE < 0 := by
  have h : (0 : ℝ) < snapE.elevator := by norm_num [snapE]
  exact ⟨h, (pilot_command_sign_convention snapE).2.2.2 h⟩

end FCS
